import Mathlib

/-!
Verification of the Reachy face-tracking controllers.

The definitions below are a shallow embedding of the Python sources:

* `FaceTracking/reachy_face_tracking.py` — the `FaceTrackingController`
  (ROI dead zone / rate limit / smoothing / magnitude threshold) and the
  `ReachyFaceTracker._tracking_loop` state machine;
* `robot/controllers/tracking.py` — the `TrackingController._loop` variant
  with the parent `RobotController`'s `conversation_active` flag;
* `Flask/util/movement.py` — `get_joints` (NaN-safe joint reads);
* the `giving_up` antenna sweep of `_antenna_controller`.

Real-valued quantities are modelled as exact rationals (`ℚ`); Python's
`int()` is modelled as truncation toward zero; Python's `round(x, 2)` as
round-half-to-even at two decimals.
-/

namespace Reachy

/-- Python `int(q)`: truncation of a real (here exact rational) toward zero. -/
def pyInt (q : ℚ) : ℤ := if 0 ≤ q then ⌊q⌋ else -⌊-q⌋

/-- Round to the nearest integer, ties to even (Python's `round` on exact
values). -/
def roundHalfEven (q : ℚ) : ℤ :=
  let f : ℤ := ⌊q⌋
  let r : ℚ := q - f
  if r < 1/2 then f
  else if 1/2 < r then f + 1
  else if f % 2 = 0 then f else f + 1

/-- Python `round(q, 2)`. -/
def pyRound2 (q : ℚ) : ℚ := (roundHalfEven (q * 100) : ℚ) / 100

/-- The mutable state of `FaceTrackingController`
(`FaceTracking/reachy_face_tracking.py`, `__init__`). -/
structure FaceTrackingController where
  frame_width : ℚ
  frame_height : ℚ
  frame_center_x : ℚ
  frame_center_y : ℚ
  roi_width_ratio : ℚ
  roi_height_ratio : ℚ
  last_movement_time : ℚ
  movement_interval : ℚ
  min_movement_threshold : ℚ
  smoothing_factor : ℚ
  smoothed_error_x : ℚ
  smoothed_error_y : ℚ
  deriving Repr, DecidableEq

namespace FaceTrackingController

/-- `FaceTrackingController.__init__(frame_width, frame_height)`: the
constructor's default parameter values. -/
def init (frame_width frame_height : ℚ) : FaceTrackingController where
  frame_width := frame_width
  frame_height := frame_height
  frame_center_x := frame_width / 2
  frame_center_y := frame_height / 2
  roi_width_ratio := 40/100
  roi_height_ratio := 40/100
  last_movement_time := 0
  movement_interval := 1/10
  min_movement_threshold := 1
  smoothing_factor := 7/10
  smoothed_error_x := 0
  smoothed_error_y := 0

/-- `get_roi_bounds`: the dead-zone rectangle `(x1, y1, x2, y2)` around the
frame center. -/
def get_roi_bounds (s : FaceTrackingController) : ℤ × ℤ × ℤ × ℤ :=
  let roi_w : ℤ := pyInt (s.frame_width * s.roi_width_ratio)
  let roi_h : ℤ := pyInt (s.frame_height * s.roi_height_ratio)
  let x1 := pyInt (s.frame_center_x - roi_w / 2)
  let y1 := pyInt (s.frame_center_y - roi_h / 2)
  let x2 := pyInt (s.frame_center_x + roi_w / 2)
  let y2 := pyInt (s.frame_center_y + roi_h / 2)
  (x1, y1, x2, y2)

/-- `is_in_roi`: whether the face point lies inside the dead zone
(Python compares the `int` bounds with the float coordinates numerically). -/
def is_in_roi (s : FaceTrackingController) (face_x face_y : ℚ) : Bool :=
  let b := s.get_roi_bounds
  decide ((b.1 : ℚ) ≤ face_x) && decide (face_x ≤ (b.2.2.1 : ℚ)) &&
    decide ((b.2.1 : ℚ) ≤ face_y) && decide (face_y ≤ (b.2.2.2 : ℚ))

/-- `calculate_movement(face_x, face_y, current_time, movement_gain)`.
Returns the updated controller state together with the optional
`(pan_adjustment, roll_adjustment)` command.

The source compares `np.sqrt(pan**2 + roll**2) < min_movement_threshold`;
with the nonnegative threshold of the constructor this is equivalent to
`pan**2 + roll**2 < min_movement_threshold**2`, which is how the (exact,
computable) test is written here. -/
def calculate_movement (s : FaceTrackingController)
    (face_x face_y current_time movement_gain : ℚ) :
    FaceTrackingController × Option (ℚ × ℚ) :=
  if current_time - s.last_movement_time < s.movement_interval then
    (s, none)
  else if s.is_in_roi face_x face_y then
    (s, none)
  else
    let error_x := (face_x - s.frame_center_x) / s.frame_width
    let error_y := (face_y - s.frame_center_y) / s.frame_height
    let alpha := 1 - s.smoothing_factor
    let sx := alpha * error_x + s.smoothing_factor * s.smoothed_error_x
    let sy := alpha * error_y + s.smoothing_factor * s.smoothed_error_y
    let pan_adjustment := -sx * movement_gain
    let roll_adjustment := -sy * movement_gain
    if pan_adjustment ^ 2 + roll_adjustment ^ 2 < s.min_movement_threshold ^ 2 then
      ({ s with smoothed_error_x := sx, smoothed_error_y := sy }, none)
    else
      ({ s with smoothed_error_x := sx, smoothed_error_y := sy,
                last_movement_time := current_time },
       some (pan_adjustment, roll_adjustment))

/-- The smoothed x error `calculate_movement` stores after passing the
dead-zone check (lines 133-137). -/
def smoothed_x_after (s : FaceTrackingController) (face_x : ℚ) : ℚ :=
  (1 - s.smoothing_factor) * ((face_x - s.frame_center_x) / s.frame_width) +
    s.smoothing_factor * s.smoothed_error_x

/-- The smoothed y error `calculate_movement` stores after passing the
dead-zone check (lines 134-138). -/
def smoothed_y_after (s : FaceTrackingController) (face_y : ℚ) : ℚ :=
  (1 - s.smoothing_factor) * ((face_y - s.frame_center_y) / s.frame_height) +
    s.smoothing_factor * s.smoothed_error_y

/-- The pan adjustment computed at line 140. -/
def pan_adjustment_of (s : FaceTrackingController) (face_x movement_gain : ℚ) : ℚ :=
  -(s.smoothed_x_after face_x) * movement_gain

/-- The roll adjustment computed at line 141. -/
def roll_adjustment_of (s : FaceTrackingController) (face_y movement_gain : ℚ) : ℚ :=
  -(s.smoothed_y_after face_y) * movement_gain

end FaceTrackingController

/-- The values of `scanning_state` in both tracking loops. -/
inductive ScanState where
  | idle
  | scanning
  | giving_up
  | sad
  | looking_down
  | waiting
  deriving Repr, DecidableEq

/-- The values of `current_antenna_mode`. -/
inductive AntennaMode where
  | idle
  | tracking
  | scanning
  | giving_up
  | sad
  deriving Repr, DecidableEq

/-- One per-tick interpolation step,
`current += (target - current) * INTERPOLATION_RATE`
(`reachy_face_tracking.py` lines 423-424, `robot/controllers/tracking.py`
lines 205-206). -/
def interpolate (current target rate : ℚ) : ℚ :=
  current + (target - current) * rate

/-- One exponential-smoothing step,
`smoothed = alpha * raw + (1 - alpha) * smoothed_prev`
(`robot/controllers/tracking.py` lines 104-107; `calculate_movement` writes
the same update with `alpha = 1 - smoothing_factor`). -/
def smoothStep (alpha raw smoothed : ℚ) : ℚ :=
  alpha * raw + (1 - alpha) * smoothed

/-- `n` smoothing steps fed the same raw value. -/
def smoothIter (alpha raw : ℚ) : ℕ → ℚ → ℚ
  | 0, smoothed => smoothed
  | n + 1, smoothed => smoothIter alpha raw n (smoothStep alpha raw smoothed)

/-- The per-tick inputs of a tracking-loop iteration that come from outside
the controller state: the detector result, the first detection's relative
bounding box, the wall clock, the two `present_position` reads used by the
movement branch, and the two `random.uniform` draws used by a scan attempt. -/
structure TickInput where
  detections : Bool
  bbox_xmin : ℚ
  bbox_ymin : ℚ
  bbox_width : ℚ
  bbox_height : ℚ
  current_time : ℚ
  actual_pan : ℚ
  actual_roll : ℚ
  rand_pan_mag : ℚ
  rand_roll : ℚ
  deriving Repr, DecidableEq

/-- The mutable state of `ReachyFaceTracker`
(`FaceTracking/reachy_face_tracking.py`, `__init__`). -/
structure ReachyFaceTracker where
  frame_width : ℚ
  frame_height : ℚ
  tracker : FaceTrackingController
  target_pan : ℚ
  target_roll : ℚ
  target_pitch : ℚ
  current_pan : ℚ
  current_roll : ℚ
  current_pitch : ℚ
  INTERPOLATION_RATE : ℚ
  frame_count : ℕ
  no_face_count : ℕ
  PANLEFT : Bool
  scanning_state : ScanState
  scan_count : ℕ
  MAX_SCANS : ℕ
  state_start_time : ℚ
  current_antenna_mode : AntennaMode
  enable_antenna : Bool
  deriving Repr, DecidableEq

namespace ReachyFaceTracker

/-- `ReachyFaceTracker.__init__`: the state after construction (camera
frame of the given size). -/
def init (frame_width frame_height : ℚ) (enable_antenna : Bool) :
    ReachyFaceTracker where
  frame_width := frame_width
  frame_height := frame_height
  tracker := FaceTrackingController.init frame_width frame_height
  target_pan := 0
  target_roll := 0
  target_pitch := 0
  current_pan := 0
  current_roll := 0
  current_pitch := 0
  INTERPOLATION_RATE := 3/10
  frame_count := 0
  no_face_count := 0
  PANLEFT := true
  scanning_state := ScanState.idle
  scan_count := 0
  MAX_SCANS := 1
  state_start_time := 0
  current_antenna_mode := AntennaMode.idle
  enable_antenna := enable_antenna

/-- One iteration of `ReachyFaceTracker._tracking_loop` (lines 290-429) on a
tick where a camera frame is available.  The `goto` call of the
`sad → looking_down` transition and the per-tick `goal_position` writes are
external actuator effects; the commanded per-tick positions are the
`current_pan` / `current_roll` / `current_pitch` fields of the result. -/
def tick (s : ReachyFaceTracker) (i : TickInput) : ReachyFaceTracker :=
  let s0 := { s with frame_count := s.frame_count + 1 }
  let s1 :=
    if i.detections then
      -- FACE DETECTED (lines 306-334)
      let a := { s0 with no_face_count := 0, scan_count := 0,
                         scanning_state := ScanState.idle }
      let a := if a.enable_antenna then
                 { a with current_antenna_mode := AntennaMode.tracking }
               else a
      let face_x := (i.bbox_xmin + i.bbox_width / 2) * a.frame_width
      let face_y := (i.bbox_ymin + i.bbox_height / 2) * a.frame_height
      let mv := a.tracker.calculate_movement face_x face_y i.current_time 50
      let a := { a with tracker := mv.1 }
      match mv.2 with
      | some (pan_adjustment, roll_adjustment) =>
          { a with target_pan := i.actual_pan + pan_adjustment,
                   target_roll := i.actual_roll + roll_adjustment,
                   target_pitch := 0 }
      | none => a
    else
      -- NO FACE - scanning behavior (lines 336-420)
      let a := { s0 with no_face_count := s0.no_face_count + 1 }
      match a.scanning_state with
      | ScanState.idle =>
          if a.no_face_count ≥ 60 then
            let a := { a with scanning_state := ScanState.scanning,
                              scan_count := 0,
                              state_start_time := i.current_time }
            if a.enable_antenna then
              { a with current_antenna_mode := AntennaMode.scanning }
            else a
          else
            if a.enable_antenna then
              { a with current_antenna_mode := AntennaMode.idle }
            else a
      | ScanState.scanning =>
          let a := if a.enable_antenna then
                     { a with current_antenna_mode := AntennaMode.scanning }
                   else a
          if a.frame_count % 90 = 0 then
            let a := { a with scan_count := a.scan_count + 1 }
            if a.scan_count > a.MAX_SCANS then
              let a := { a with scanning_state := ScanState.giving_up,
                                state_start_time := i.current_time }
              if a.enable_antenna then
                { a with current_antenna_mode := AntennaMode.giving_up }
              else a
            else
              let random_pan := if a.PANLEFT then -i.rand_pan_mag else i.rand_pan_mag
              { a with PANLEFT := !a.PANLEFT,
                       target_pan := random_pan,
                       target_roll := i.rand_roll,
                       target_pitch := 0 }
          else a
      | ScanState.giving_up =>
          if i.current_time - a.state_start_time > 3/2 then
            let a := { a with scanning_state := ScanState.sad,
                              state_start_time := i.current_time }
            if a.enable_antenna then
              { a with current_antenna_mode := AntennaMode.sad }
            else a
          else a
      | ScanState.sad =>
          let a := if a.enable_antenna then
                     { a with current_antenna_mode := AntennaMode.sad }
                   else a
          if i.current_time - a.state_start_time > 2 then
            -- also issues the timed looking-down `goto` (external effect)
            { a with scanning_state := ScanState.looking_down,
                     state_start_time := i.current_time }
          else a
      | ScanState.looking_down =>
          let a := if a.enable_antenna then
                     { a with current_antenna_mode := AntennaMode.sad }
                   else a
          if i.current_time - a.state_start_time > 3 then
            { a with scanning_state := ScanState.waiting,
                     state_start_time := i.current_time }
          else a
      | ScanState.waiting =>
          let a := if a.enable_antenna then
                     { a with current_antenna_mode := AntennaMode.sad }
                   else a
          if i.current_time - a.state_start_time > 2 then
            let a := { a with scanning_state := ScanState.scanning,
                              scan_count := 0,
                              state_start_time := i.current_time }
            let a := if a.enable_antenna then
                       { a with current_antenna_mode := AntennaMode.scanning }
                     else a
            { a with target_pitch := 0 }
          else a
  { s1 with
    current_pan := interpolate s1.current_pan s1.target_pan s1.INTERPOLATION_RATE,
    current_roll := interpolate s1.current_roll s1.target_roll s1.INTERPOLATION_RATE }

end ReachyFaceTracker

/-- The fields of the parent `RobotController`
(`robot/controllers/robot.py`) that `TrackingController._loop` reads or
writes: tuning constants, the state-machine variable `scanning_state`, the
external `conversation_active` flag and the antenna controller's
`current_antenna_mode`. -/
structure RobotParent where
  frame_width : ℚ
  frame_height : ℚ
  frame_center_x : ℚ
  frame_center_y : ℚ
  DEADBAND : ℚ
  MOVEMENT_GAIN : ℚ
  SMOOTHING_ALPHA : ℚ
  MAX_SCANS : ℕ
  scanning_state : ScanState
  conversation_active : Bool
  antenna_mode : AntennaMode
  deriving Repr, DecidableEq

/-- The mutable state of `robot/controllers/tracking.py`'s
`TrackingController` together with its parent.  `shadow_scanning_state`
models the attribute created on the `TrackingController` object itself by
line 133 (`self.scanning_state = "scanning"`); every read of the state
machine goes through `self.parent.scanning_state`, so this attribute is
write-only. -/
structure TrackingController where
  parent : RobotParent
  target_pan : ℚ
  target_roll : ℚ
  target_pitch : ℚ
  current_pan : ℚ
  current_roll : ℚ
  current_pitch : ℚ
  INTERPOLATION_RATE : ℚ
  MIN_MOVEMENT_THRESHOLD : ℚ
  smoothed_error_x : ℚ
  smoothed_error_y : ℚ
  frame_count : ℕ
  no_face_count : ℕ
  PANLEFT : Bool
  scan_count : ℕ
  state_start_time : ℚ
  shadow_scanning_state : Option ScanState
  deriving Repr, DecidableEq

namespace TrackingController

/-- One iteration of `TrackingController._loop` (lines 69-214) on a tick
where `running` holds and a camera frame is available.  The per-tick
`goal_position` writes are external effects; the commanded positions are
the `current_pan` / `current_roll` / `current_pitch` fields of the
result. -/
def tick (s : TrackingController) (i : TickInput) : TrackingController :=
  let s0 := { s with frame_count := s.frame_count + 1 }
  let s1 :=
    if i.detections then
      -- FACE DETECTED (lines 85-124)
      let a := { s0 with no_face_count := 0, scan_count := 0,
                         parent := { s0.parent with scanning_state := ScanState.idle } }
      let a := if a.parent.conversation_active then a
               else { a with parent := { a.parent with antenna_mode := AntennaMode.tracking } }
      let face_center_x := (i.bbox_xmin + i.bbox_width / 2) * a.parent.frame_width
      let face_center_y := (i.bbox_ymin + i.bbox_height / 2) * a.parent.frame_height
      let error_x := (face_center_x - a.parent.frame_center_x) / a.parent.frame_width
      let error_y := (face_center_y - a.parent.frame_center_y) / a.parent.frame_height
      let a := { a with
        smoothed_error_x := a.parent.SMOOTHING_ALPHA * error_x +
          (1 - a.parent.SMOOTHING_ALPHA) * a.smoothed_error_x,
        smoothed_error_y := a.parent.SMOOTHING_ALPHA * error_y +
          (1 - a.parent.SMOOTHING_ALPHA) * a.smoothed_error_y }
      let a :=
        if |a.smoothed_error_x| > a.parent.DEADBAND ∨
           |a.smoothed_error_y| > a.parent.DEADBAND then
          let pan_movement := -a.smoothed_error_x * a.parent.MOVEMENT_GAIN
          let roll_movement := -a.smoothed_error_y * a.parent.MOVEMENT_GAIN
          let new_target_pan := i.actual_pan + pan_movement
          let new_target_roll := i.actual_roll + roll_movement
          if |new_target_pan - a.target_pan| > a.MIN_MOVEMENT_THRESHOLD ∨
             |new_target_roll - a.target_roll| > a.MIN_MOVEMENT_THRESHOLD then
            { a with target_pan := new_target_pan, target_roll := new_target_roll }
          else a
        else a
      { a with target_pitch := 0 }
    else
      -- NO FACE - scanning state machine, only if not in conversation
      -- (lines 126-202)
      if s0.parent.conversation_active then s0
      else
        let a := { s0 with no_face_count := s0.no_face_count + 1 }
        match a.parent.scanning_state with
        | ScanState.idle =>
            if a.no_face_count ≥ 60 then
              -- line 133 writes `self.scanning_state`, not
              -- `self.parent.scanning_state`
              { a with shadow_scanning_state := some ScanState.scanning,
                       scan_count := 0,
                       state_start_time := i.current_time,
                       parent := { a.parent with antenna_mode := AntennaMode.scanning } }
            else
              { a with parent := { a.parent with antenna_mode := AntennaMode.idle } }
        | ScanState.scanning =>
            let a := { a with parent := { a.parent with antenna_mode := AntennaMode.scanning } }
            if a.frame_count % 90 = 0 then
              let a := { a with scan_count := a.scan_count + 1 }
              if a.scan_count > a.parent.MAX_SCANS then
                let p := { a.parent with scanning_state := ScanState.giving_up,
                                         antenna_mode := AntennaMode.giving_up }
                { a with parent := p, state_start_time := i.current_time }
              else
                let random_pan := if a.PANLEFT then -i.rand_pan_mag else i.rand_pan_mag
                { a with PANLEFT := !a.PANLEFT,
                         target_pan := random_pan,
                         target_roll := i.rand_roll,
                         target_pitch := 0 }
            else a
        | ScanState.giving_up =>
            if i.current_time - a.state_start_time > 3/2 then
              let p := { a.parent with scanning_state := ScanState.sad,
                                       antenna_mode := AntennaMode.sad }
              { a with parent := p, state_start_time := i.current_time }
            else a
        | ScanState.sad =>
            let a := { a with parent := { a.parent with antenna_mode := AntennaMode.sad } }
            if i.current_time - a.state_start_time > 2 then
              -- also issues the timed looking-down `goto` (external effect)
              { a with parent := { a.parent with scanning_state := ScanState.looking_down },
                       state_start_time := i.current_time }
            else a
        | ScanState.looking_down =>
            let a := { a with parent := { a.parent with antenna_mode := AntennaMode.sad } }
            if i.current_time - a.state_start_time > 3 then
              { a with parent := { a.parent with scanning_state := ScanState.waiting },
                       state_start_time := i.current_time }
            else a
        | ScanState.waiting =>
            let a := { a with parent := { a.parent with antenna_mode := AntennaMode.sad } }
            if i.current_time - a.state_start_time > 2 then
              let p := { a.parent with scanning_state := ScanState.scanning,
                                       antenna_mode := AntennaMode.scanning }
              { a with parent := p, scan_count := 0,
                       state_start_time := i.current_time,
                       target_pitch := 0 }
            else a
  { s1 with
    current_pan := interpolate s1.current_pan s1.target_pan s1.INTERPOLATION_RATE,
    current_roll := interpolate s1.current_roll s1.target_roll s1.INTERPOLATION_RATE }

end TrackingController

/-- A `present_position` read as the joint-reading code sees it: a finite
angle, or the actuator reporting NaN.  NaN is contagious under float
arithmetic, which `JVal.add` / `JVal.sub` / `JVal.mul` reproduce. -/
inductive JVal where
  | num (q : ℚ)
  | nan
  deriving Repr, DecidableEq

namespace JVal

def add : JVal → JVal → JVal
  | num a, num b => num (a + b)
  | _, _ => nan

def sub : JVal → JVal → JVal
  | num a, num b => num (a - b)
  | _, _ => nan

def mul : JVal → JVal → JVal
  | num a, num b => num (a * b)
  | _, _ => nan

end JVal

/-- The per-joint body of `get_joints` (`Flask/util/movement.py` lines
76-89): a `present_position` read that is `None` or NaN is replaced by
`0.0` and counted; a finite value is stored rounded to two decimals.
Returns the stored position and the `nan_count` increment. -/
def get_joints_entry : Option JVal → ℚ × ℕ
  | none => (0, 1)
  | some JVal.nan => (0, 1)
  | some (JVal.num q) => (pyRound2 q, 0)

/-- `get_joints` over the listed joints' reads: the stored positions and
the final `nan_count`. -/
def get_joints (reads : List (Option JVal)) : List ℚ × ℕ :=
  (reads.map fun r => (get_joints_entry r).1,
   (reads.map fun r => (get_joints_entry r).2).sum)

/-- The pan axis of `ReachyFaceTracker._tracking_loop`'s startup and first
iteration, under float semantics: line 283 assigns the raw
`neck_yaw.present_position` read to `current_pan`, line 286 copies it to
`target_pan`, and line 423 interpolates before line 427 writes the result
to `neck_yaw.goal_position`.  No NaN check is applied anywhere on this
path. -/
def trackingLoopPanInit (read_pan : JVal) : JVal :=
  let current_pan := read_pan
  let target_pan := current_pan
  current_pan.add ((target_pan.sub current_pan).mul (JVal.num (3/10)))

/-- Python `range(start, stop, step)` for a nonzero step. -/
def pyRange (start stop step : ℤ) : List ℤ :=
  let len : ℕ :=
    if 0 < step then ((stop - start + step - 1) / step).toNat
    else ((start - stop + (-step) - 1) / (-step)).toNat
  (List.range len).map fun k => start + k * step

/-- One `giving_up` beat of `_antenna_controller`
(`reachy_face_tracking.py` lines 269-275): the `(l_antenna, r_antenna,
sleep)` commands issued by `for pos in range(0, -21, -2)`, where step `k`
executes only while the thread is running and the mode is still
`giving_up` (`alive k`); the loop breaks at the first step at which that
fails. -/
def givingUpBeat (alive : ℕ → Bool) : List (ℤ × ℤ × ℚ) :=
  (((pyRange 0 (-21) (-2)).enum.takeWhile fun p => alive p.1).map
    fun p => (-p.2, p.2, 1/10))

/-- `RobotController.__init__` values of the parent fields read by the
tracking loop (`robot/controllers/robot.py` lines 34-45). -/
def robotParent0 : RobotParent where
  frame_width := 640
  frame_height := 480
  frame_center_x := 320
  frame_center_y := 240
  DEADBAND := 4/100
  MOVEMENT_GAIN := 50
  SMOOTHING_ALPHA := 1/2
  MAX_SCANS := 1
  scanning_state := ScanState.idle
  conversation_active := false
  antenna_mode := AntennaMode.idle

/-- A robot tracking controller in `Idle` whose no-face counter reaches 60
on the next no-face tick. -/
def robotIdle59 : TrackingController where
  parent := robotParent0
  target_pan := 0
  target_roll := 0
  target_pitch := 0
  current_pan := 0
  current_roll := 0
  current_pitch := 0
  INTERPOLATION_RATE := 3/10
  MIN_MOVEMENT_THRESHOLD := 2
  smoothed_error_x := 0
  smoothed_error_y := 0
  frame_count := 0
  no_face_count := 59
  PANLEFT := true
  scan_count := 0
  state_start_time := 0
  shadow_scanning_state := none

/-- A tick on which the detector returns nothing. -/
def noFaceInput : TickInput where
  detections := false
  bbox_xmin := 0
  bbox_ymin := 0
  bbox_width := 0
  bbox_height := 0
  current_time := 5
  actual_pan := 0
  actual_roll := 0
  rand_pan_mag := 40
  rand_roll := 2

/-- A tick on which the detector returns a face (centered bounding box). -/
def faceInput : TickInput where
  detections := true
  bbox_xmin := 2/5
  bbox_ymin := 2/5
  bbox_width := 1/5
  bbox_height := 1/5
  current_time := 5
  actual_pan := 0
  actual_roll := 0
  rand_pan_mag := 40
  rand_roll := 2

/-- The standalone tracker in `Idle` whose no-face counter reaches 60 on
the next no-face tick. -/
def reachyIdle59 : ReachyFaceTracker :=
  { ReachyFaceTracker.init 640 480 true with no_face_count := 59 }

/-- The standalone tracker in `Scanning`, no attempt yet, one frame before
a scan-cadence tick. -/
def reachyScan0 : ReachyFaceTracker :=
  { ReachyFaceTracker.init 640 480 true with
      scanning_state := ScanState.scanning, frame_count := 89, no_face_count := 70 }

/-- The standalone tracker in `Scanning` after one accepted scan attempt,
one frame before the next scan-cadence tick. -/
def reachyScan1 : ReachyFaceTracker :=
  { ReachyFaceTracker.init 640 480 true with
      scanning_state := ScanState.scanning, scan_count := 1,
      frame_count := 179, no_face_count := 160 }

end Reachy

namespace Reachy

/-- C6: one interpolated actuation step with rate in (0,1] strictly
shrinks the distance to the target whenever the actuated value differs
from it (the step never overshoots). -/
theorem interpolate_no_overshoot (actuated target rate : ℚ)
    (h0 : 0 < rate) (h1 : rate ≤ 1) (hne : actuated ≠ target) :
    |interpolate actuated target rate - target| < |actuated - target| := by
  have hrw : interpolate actuated target rate - target
      = (actuated - target) * (1 - rate) := by
    unfold interpolate; ring
  rw [hrw, abs_mul]
  have hpos : 0 < |actuated - target| := abs_pos.mpr (sub_ne_zero.mpr hne)
  have habs : |1 - rate| < 1 := by
    rw [abs_lt]; constructor <;> linarith
  calc |actuated - target| * |1 - rate| < |actuated - target| * 1 := by
        exact mul_lt_mul_of_pos_left habs hpos
    _ = |actuated - target| := mul_one _

/-- C6 witness: a concrete interpolation step at the source's rate 0.3. -/
theorem interpolate_no_overshoot_ex :
    |interpolate 0 1 (3/10) - 1| < |(0 : ℚ) - 1| :=
  interpolate_no_overshoot 0 1 (3/10) (by norm_num) (by norm_num) (by norm_num)

/-- One smoothing step multiplies the distance to the raw value by
`1 - alpha`. -/
theorem smoothStep_sub_raw (alpha raw s : ℚ) :
    smoothStep alpha raw s - raw = (1 - alpha) * (s - raw) := by
  unfold smoothStep; ring

/-- C7: feeding the same raw error `n` times through the smoother leaves
`|smoothed_n - raw| = (1 - alpha)^n * |smoothed_0 - raw|`, so with
`alpha` in (0,1) the smoothed value converges geometrically to the raw
value. -/
theorem smoothIter_error (alpha raw : ℚ) (h0 : 0 < alpha) (h1 : alpha < 1) :
    ∀ (n : ℕ) (s : ℚ),
      |smoothIter alpha raw n s - raw| = (1 - alpha) ^ n * |s - raw| := by
  intro n
  induction n with
  | zero => intro s; simp [smoothIter]
  | succ n ih =>
      intro s
      have hα : (0 : ℚ) ≤ 1 - alpha := by linarith
      calc |smoothIter alpha raw (n + 1) s - raw|
          = |smoothIter alpha raw n (smoothStep alpha raw s) - raw| := rfl
        _ = (1 - alpha) ^ n * |smoothStep alpha raw s - raw| := ih _
        _ = (1 - alpha) ^ n * ((1 - alpha) * |s - raw|) := by
              rw [smoothStep_sub_raw, abs_mul, abs_of_nonneg hα]
        _ = (1 - alpha) ^ (n + 1) * |s - raw| := by ring

/-- C7 witness: two smoothing steps at alpha = 0.3 from 0 toward raw
error 1. -/
theorem smoothIter_error_ex :
    |smoothIter (3/10) 1 2 0 - 1| = (1 - 3/10) ^ 2 * |(0 : ℚ) - 1| :=
  smoothIter_error (3/10) 1 (by norm_num) (by norm_num) 2 0

namespace FaceTrackingController

/-- A rate-limited call returns no movement and leaves the state alone. -/
theorem calculate_movement_rate (s : FaceTrackingController) (x y t g : ℚ)
    (h : t - s.last_movement_time < s.movement_interval) :
    s.calculate_movement x y t g = (s, none) := by
  simp [calculate_movement, h]

/-- A call with the face inside the dead zone returns no movement and
leaves the state alone. -/
theorem calculate_movement_roi (s : FaceTrackingController) (x y t g : ℚ)
    (h : ¬(t - s.last_movement_time < s.movement_interval))
    (hroi : s.is_in_roi x y = true) :
    s.calculate_movement x y t g = (s, none) := by
  simp [calculate_movement, h, hroi]

/-- The four disjoint outcomes of a `calculate_movement` call: rate-limited,
inside the dead zone, below the magnitude threshold, or a returned
movement, each with the exact state it leaves behind. -/
theorem calculate_movement_cases (s : FaceTrackingController) (x y t g : ℚ) :
    (t - s.last_movement_time < s.movement_interval ∧
      s.calculate_movement x y t g = (s, none)) ∨
    (¬(t - s.last_movement_time < s.movement_interval) ∧ s.is_in_roi x y = true ∧
      s.calculate_movement x y t g = (s, none)) ∨
    (¬(t - s.last_movement_time < s.movement_interval) ∧ s.is_in_roi x y = false ∧
      (s.pan_adjustment_of x g) ^ 2 + (s.roll_adjustment_of y g) ^ 2 <
        s.min_movement_threshold ^ 2 ∧
      s.calculate_movement x y t g =
        ({ s with smoothed_error_x := s.smoothed_x_after x,
                  smoothed_error_y := s.smoothed_y_after y }, none)) ∨
    (¬(t - s.last_movement_time < s.movement_interval) ∧ s.is_in_roi x y = false ∧
      ¬((s.pan_adjustment_of x g) ^ 2 + (s.roll_adjustment_of y g) ^ 2 <
        s.min_movement_threshold ^ 2) ∧
      s.calculate_movement x y t g =
        ({ s with smoothed_error_x := s.smoothed_x_after x,
                  smoothed_error_y := s.smoothed_y_after y,
                  last_movement_time := t },
         some (s.pan_adjustment_of x g, s.roll_adjustment_of y g))) := by
  by_cases h1 : t - s.last_movement_time < s.movement_interval
  · exact Or.inl ⟨h1, by rw [calculate_movement, if_pos h1]⟩
  · by_cases h2 : s.is_in_roi x y
    · refine Or.inr (Or.inl ⟨h1, h2, ?_⟩)
      rw [calculate_movement, if_neg h1, if_pos h2]
    · by_cases h3 : (s.pan_adjustment_of x g) ^ 2 + (s.roll_adjustment_of y g) ^ 2 <
        s.min_movement_threshold ^ 2
      · refine Or.inr (Or.inr (Or.inl ⟨h1, by simpa using h2, h3, ?_⟩))
        simp only [pan_adjustment_of, roll_adjustment_of, smoothed_x_after,
          smoothed_y_after] at h3
        rw [calculate_movement, if_neg h1, if_neg h2]
        dsimp only
        rw [if_pos h3]
        rfl
      · refine Or.inr (Or.inr (Or.inr ⟨h1, by simpa using h2, h3, ?_⟩))
        simp only [pan_adjustment_of, roll_adjustment_of, smoothed_x_after,
          smoothed_y_after] at h3
        rw [calculate_movement, if_neg h1, if_neg h2]
        dsimp only
        rw [if_neg h3]
        rfl

/-- When a movement is returned, `last_movement_time` has been set to the
call's `current_time`; the interval parameter is untouched. -/
theorem calculate_movement_some_time (s : FaceTrackingController)
    (x y t g : ℚ) (mv : ℚ × ℚ)
    (h : (s.calculate_movement x y t g).2 = some mv) :
    (s.calculate_movement x y t g).1.last_movement_time = t ∧
      (s.calculate_movement x y t g).1.movement_interval = s.movement_interval := by
  rcases calculate_movement_cases s x y t g with
    ⟨h1, heq⟩ | ⟨h1, h2, heq⟩ | ⟨h1, h2, h3, heq⟩ | ⟨h1, h2, h3, heq⟩ <;>
    rw [heq] at h ⊢ <;> simp_all

/-- C2 (amended): when a call to the Motion Planner returns a movement,
any second call less than the minimum movement interval after it returns
no movement, regardless of the face position, error magnitude and gain
passed to the second call. -/
theorem rate_limit_blocks_second_movement (s : FaceTrackingController)
    (x1 y1 t1 g1 x2 y2 t2 g2 : ℚ) (mv : ℚ × ℚ)
    (hfirst : (s.calculate_movement x1 y1 t1 g1).2 = some mv)
    (hsep : t2 - t1 < s.movement_interval) :
    ((s.calculate_movement x1 y1 t1 g1).1.calculate_movement x2 y2 t2 g2).2 = none := by
  obtain ⟨hlast, hint⟩ := calculate_movement_some_time s x1 y1 t1 g1 mv hfirst
  rw [calculate_movement_rate _ x2 y2 t2 g2 (by rw [hlast, hint]; exact hsep)]

/-- C2 witness: the default controller issues a movement for the face at
(600, 240) at time 1, and a second call 0.05 s later is rate-limited. -/
theorem rate_limit_blocks_second_movement_ex :
    (((FaceTrackingController.init 640 480).calculate_movement 600 240 1 50).1.calculate_movement
        600 240 (21/20) 50).2 = none :=
  rate_limit_blocks_second_movement (FaceTrackingController.init 640 480)
    600 240 1 50 600 240 (21/20) 50 (-(105/16), 0)
    (by norm_num [FaceTrackingController.init, FaceTrackingController.calculate_movement,
      FaceTrackingController.is_in_roi, FaceTrackingController.get_roi_bounds, pyInt])
    (by norm_num [FaceTrackingController.init])

/-- C2 counterexample: two calls 0.05 s apart (less than the 0.1 s
minimum interval) where the second call nonetheless returns a movement,
because the first call commanded nothing and so left
`last_movement_time` at its old value 0. -/
theorem rate_limit_claim_cex :
    (21/20 : ℚ) - 1 < (FaceTrackingController.init 640 480).movement_interval ∧
    ((FaceTrackingController.init 640 480).calculate_movement 320 240 1 50).2 = none ∧
    (((FaceTrackingController.init 640 480).calculate_movement 320 240 1 50).1.calculate_movement
        600 240 (21/20) 50).2 = some (-(105/16), 0) := by
  refine ⟨by norm_num [FaceTrackingController.init], ?_, ?_⟩ <;>
    norm_num [FaceTrackingController.init, FaceTrackingController.calculate_movement,
      FaceTrackingController.is_in_roi, FaceTrackingController.get_roi_bounds, pyInt]

/-- C4 counterexample: on a 640x480 frame with the 0.40 x 0.40 ratios the
computed dead zone is [192, 448] x [144, 336] — its right edge is 448,
not the 384 the claim states. -/
theorem roi_bounds_cex :
    (FaceTrackingController.init 640 480).get_roi_bounds = (192, 144, 448, 336) ∧
    ¬((448 : ℤ) = 384) := by
  constructor
  · norm_num [FaceTrackingController.init, FaceTrackingController.get_roi_bounds, pyInt]
  · decide

/-- C4 (amended): on a 640x480 frame with ratios 0.40 x 0.40 the dead zone
is the centered 256 x 192 rectangle [192, 448] x [144, 336]; the face at
(320, 240) is inside it and commands no movement, while the face at
(600, 240) is outside, has normalized error 0.4375 = 7/16, and commands a
movement with nonzero pan adjustment and roll adjustment exactly 0. -/
theorem roi_scenario :
    (FaceTrackingController.init 640 480).get_roi_bounds = (192, 144, 448, 336) ∧
    (FaceTrackingController.init 640 480).is_in_roi 320 240 = true ∧
    ((FaceTrackingController.init 640 480).calculate_movement 320 240 1 50).2 = none ∧
    (FaceTrackingController.init 640 480).is_in_roi 600 240 = false ∧
    (600 - (FaceTrackingController.init 640 480).frame_center_x) /
        (FaceTrackingController.init 640 480).frame_width = 7/16 ∧
    ((FaceTrackingController.init 640 480).calculate_movement 600 240 1 50).2 =
      some (-(105/16), 0) ∧
    ¬((-(105/16) : ℚ) = 0) := by
  refine ⟨?_, ?_, ?_, ?_, ?_, ?_, by norm_num⟩ <;>
    norm_num [FaceTrackingController.init, FaceTrackingController.get_roi_bounds,
      FaceTrackingController.is_in_roi, FaceTrackingController.calculate_movement, pyInt]

/-- C10: the frame effect of `calculate_movement`.  A rate-limited call
and an inside-dead-zone call leave the state exactly as it was; a call
that proceeds past both gates but returns no movement (magnitude below
threshold) stores the new smoothed errors and leaves
`last_movement_time` unchanged; `last_movement_time` is set to the call's
`current_time` exactly when a movement pair is returned. -/
theorem calculate_movement_frame_effect (s : FaceTrackingController) (x y t g : ℚ) :
    (t - s.last_movement_time < s.movement_interval →
      s.calculate_movement x y t g = (s, none)) ∧
    (¬(t - s.last_movement_time < s.movement_interval) → s.is_in_roi x y = true →
      s.calculate_movement x y t g = (s, none)) ∧
    ((s.calculate_movement x y t g).2 = none →
      (s.calculate_movement x y t g).1.last_movement_time = s.last_movement_time) ∧
    (¬(t - s.last_movement_time < s.movement_interval) → s.is_in_roi x y = false →
      (s.calculate_movement x y t g).2 = none →
      (s.calculate_movement x y t g).1.smoothed_error_x = s.smoothed_x_after x ∧
      (s.calculate_movement x y t g).1.smoothed_error_y = s.smoothed_y_after y ∧
      (s.calculate_movement x y t g).1.last_movement_time = s.last_movement_time) ∧
    (∀ mv : ℚ × ℚ, (s.calculate_movement x y t g).2 = some mv →
      (s.calculate_movement x y t g).1.last_movement_time = t ∧
      (s.calculate_movement x y t g).1.smoothed_error_x = s.smoothed_x_after x ∧
      (s.calculate_movement x y t g).1.smoothed_error_y = s.smoothed_y_after y) := by
  rcases calculate_movement_cases s x y t g with
    ⟨h1, heq⟩ | ⟨h1, h2, heq⟩ | ⟨h1, h2, h3, heq⟩ | ⟨h1, h2, h3, heq⟩ <;>
    rw [heq] <;> simp_all

/-- C10 witness: a rate-limited call at time 0.05 returns the state
untouched, and the movement-returning call at time 1 stamps
`last_movement_time` with 1. -/
theorem calculate_movement_frame_effect_ex :
    (FaceTrackingController.init 640 480).calculate_movement 320 240 (1/20) 50 =
      (FaceTrackingController.init 640 480, none) ∧
    ((FaceTrackingController.init 640 480).calculate_movement 600 240 1 50).1.last_movement_time
      = 1 := by
  constructor
  · exact (calculate_movement_frame_effect (FaceTrackingController.init 640 480)
      320 240 (1/20) 50).1 (by norm_num [FaceTrackingController.init])
  · exact ((calculate_movement_frame_effect (FaceTrackingController.init 640 480)
      600 240 1 50).2.2.2.2 (-(105/16), 0)
      (by norm_num [FaceTrackingController.init, FaceTrackingController.calculate_movement,
        FaceTrackingController.is_in_roi, FaceTrackingController.get_roi_bounds, pyInt])).1

end FaceTrackingController

/-- C1: on every tick of `TrackingController._loop` with at least one
detection, whatever the state-machine state before the tick: the no-face
counter and the scan-attempt counter become 0, the scanning state becomes
`Idle`, and the antenna mode becomes `Tracking` unless the parent's
`conversation_active` flag is set, in which case the antenna mode is left
alone. -/
theorem face_detected_interrupt (s : TrackingController) (i : TickInput)
    (hdet : i.detections = true) :
    (s.tick i).no_face_count = 0 ∧
    (s.tick i).scan_count = 0 ∧
    (s.tick i).parent.scanning_state = ScanState.idle ∧
    (s.parent.conversation_active = false →
      (s.tick i).parent.antenna_mode = AntennaMode.tracking) ∧
    (s.parent.conversation_active = true →
      (s.tick i).parent.antenna_mode = s.parent.antenna_mode) := by
  unfold TrackingController.tick
  simp only [hdet, if_true]
  split_ifs <;> simp_all

/-- C1 witness: a face-detected tick on the idle controller with the
conversation flag clear. -/
theorem face_detected_interrupt_ex :
    (TrackingController.tick robotIdle59 faceInput).no_face_count = 0 ∧
    (TrackingController.tick robotIdle59 faceInput).parent.scanning_state = ScanState.idle ∧
    (TrackingController.tick robotIdle59 faceInput).parent.antenna_mode =
      AntennaMode.tracking := by
  have h := face_detected_interrupt robotIdle59 faceInput (by norm_num [faceInput])
  exact ⟨h.1, h.2.2.1, h.2.2.2.1 (by norm_num [robotIdle59, robotParent0])⟩

/-- C5 (divergence witness): the no-face tick that carries the counter to
60 while `robot/controllers/tracking.py`'s machine is `Idle` resets the
scan counter, records the entry time and sets the antenna mode to
`Scanning` — but the state-machine variable `parent.scanning_state` is
still `Idle` afterwards, because line 133 writes the new state to a
fresh attribute on the `TrackingController` object
(`shadow_scanning_state` here) instead of `self.parent`.  The same tick
on `reachy_face_tracking.py`'s tracker transitions to `Scanning` as the
specification describes. -/
theorem idle_to_scanning_lost_write :
    (TrackingController.tick robotIdle59 noFaceInput).no_face_count = 60 ∧
    (TrackingController.tick robotIdle59 noFaceInput).parent.scanning_state = ScanState.idle ∧
    (TrackingController.tick robotIdle59 noFaceInput).shadow_scanning_state =
      some ScanState.scanning ∧
    (TrackingController.tick robotIdle59 noFaceInput).parent.antenna_mode =
      AntennaMode.scanning ∧
    (TrackingController.tick robotIdle59 noFaceInput).scan_count = 0 ∧
    (TrackingController.tick robotIdle59 noFaceInput).state_start_time = 5 ∧
    (reachyIdle59.tick noFaceInput).scanning_state = ScanState.scanning ∧
    (reachyIdle59.tick noFaceInput).scan_count = 0 ∧
    (reachyIdle59.tick noFaceInput).state_start_time = 5 ∧
    (reachyIdle59.tick noFaceInput).current_antenna_mode = AntennaMode.scanning := by
  norm_num [TrackingController.tick, ReachyFaceTracker.tick, robotIdle59, reachyIdle59,
    ReachyFaceTracker.init, robotParent0, noFaceInput]

set_option maxHeartbeats 1600000 in
/-- C3: with `MAX_SCANS = 1` and no face detected, the standalone
tracker's first scan-cadence tick (frame counter divisible by 90 in
`Scanning`) takes the attempt counter to 1 and stays in `Scanning`, the
second cadence tick takes it to 2 and transitions to `GivingUp`, and
ticks off the cadence change neither the state nor the counter. -/
theorem giving_up_on_second_scan_attempt
    (s s' : ReachyFaceTracker) (i i' : TickInput)
    (hs : s.scanning_state = ScanState.scanning) (hc : s.scan_count = 0)
    (hm : s.MAX_SCANS = 1) (hd : i.detections = false)
    (hf : (s.frame_count + 1) % 90 = 0)
    (hs' : s'.scanning_state = ScanState.scanning) (hc' : s'.scan_count = 1)
    (hm' : s'.MAX_SCANS = 1) (hd' : i'.detections = false)
    (hf' : (s'.frame_count + 1) % 90 = 0) :
    ((s.tick i).scanning_state = ScanState.scanning ∧ (s.tick i).scan_count = 1) ∧
    ((s'.tick i').scanning_state = ScanState.giving_up ∧ (s'.tick i').scan_count = 2) ∧
    (∀ (u : ReachyFaceTracker) (j : TickInput), u.scanning_state = ScanState.scanning →
      j.detections = false → (u.frame_count + 1) % 90 ≠ 0 →
      (u.tick j).scanning_state = ScanState.scanning ∧
        (u.tick j).scan_count = u.scan_count) := by
  refine ⟨?_, ?_, ?_⟩
  · unfold ReachyFaceTracker.tick
    simp [hd, hs, hc, hm, hf]
    split_ifs <;> simp_all
  · unfold ReachyFaceTracker.tick
    simp [hd', hs', hc', hm', hf']
    split_ifs <;> simp_all
  · intro u j hu hj hf90
    unfold ReachyFaceTracker.tick
    simp [hj, hu, hf90]
    split_ifs <;> simp_all

/-- C3 witness: the tracker of `reachy_face_tracking.py` (MAX_SCANS = 1)
on its cadence ticks at frame counts 90 and 180. -/
theorem giving_up_on_second_scan_attempt_ex :
    ((reachyScan0.tick noFaceInput).scanning_state = ScanState.scanning ∧
      (reachyScan0.tick noFaceInput).scan_count = 1) ∧
    ((reachyScan1.tick noFaceInput).scanning_state = ScanState.giving_up ∧
      (reachyScan1.tick noFaceInput).scan_count = 2) := by
  have h := giving_up_on_second_scan_attempt reachyScan0 reachyScan1 noFaceInput noFaceInput
    (by norm_num [reachyScan0, ReachyFaceTracker.init])
    (by norm_num [reachyScan0, ReachyFaceTracker.init])
    (by norm_num [reachyScan0, ReachyFaceTracker.init])
    (by norm_num [noFaceInput])
    (by norm_num [reachyScan0, ReachyFaceTracker.init])
    (by norm_num [reachyScan1, ReachyFaceTracker.init])
    (by norm_num [reachyScan1, ReachyFaceTracker.init])
    (by norm_num [reachyScan1, ReachyFaceTracker.init])
    (by norm_num [noFaceInput])
    (by norm_num [reachyScan1, ReachyFaceTracker.init])
  exact ⟨h.1, h.2.1⟩

/-- C8 (divergence witness): the designated joint-reading path
(`get_joints`) replaces a NaN `present_position` read by 0.0 and counts
it — but the tracking loop's own `present_position` read at startup
(`reachy_face_tracking.py` lines 283-288) performs no such substitution:
a NaN read flows through the interpolation into the commanded
`goal_position` unchanged, and is not 0. -/
theorem nan_read_divergence :
    get_joints [some JVal.nan] = ([0], 1) ∧
    trackingLoopPanInit JVal.nan = JVal.nan ∧
    ¬(JVal.nan = JVal.num 0) := by
  refine ⟨?_, rfl, by decide⟩
  simp [get_joints, get_joints_entry]

/-- C9 (amended): an uninterrupted `giving_up` antenna beat issues eleven
steps of 2 degrees, 0.1 s apiece, sweeping the left antenna from 0 up to
+20 degrees and the right antenna from 0 down to -20 degrees; an
interrupted beat (mode or running flag changed) executes a prefix of that
sweep. -/
theorem giving_up_sweep (alive : ℕ → Bool) :
    givingUpBeat (fun _ => true) =
      [(0, 0, 1/10), (2, -2, 1/10), (4, -4, 1/10), (6, -6, 1/10), (8, -8, 1/10),
       (10, -10, 1/10), (12, -12, 1/10), (14, -14, 1/10), (16, -16, 1/10),
       (18, -18, 1/10), (20, -20, 1/10)] ∧
    ∃ rest, givingUpBeat (fun _ => true) = givingUpBeat alive ++ rest := by
  constructor
  · rfl
  · refine ⟨(((pyRange 0 (-21) (-2)).enum.dropWhile fun p => alive p.1).map
      fun p => (-p.2, p.2, 1/10)), ?_⟩
    simp only [givingUpBeat]
    rw [← List.map_append, List.takeWhile_append_dropWhile]
    congr 1

/-- C9 witness: a beat whose liveness fails from step 3 on executes a
prefix of the full sweep. -/
theorem giving_up_sweep_ex :
    ∃ rest, givingUpBeat (fun _ => true) = givingUpBeat (fun k => decide (k < 3)) ++ rest :=
  (giving_up_sweep (fun k => decide (k < 3))).2

/-- C9 counterexample: the final step of an uninterrupted beat drives the
left antenna to +20 degrees, not the -20 degrees the claim assigns it. -/
theorem giving_up_sweep_cex :
    (givingUpBeat (fun _ => true)).getLast? = some (20, -20, 1/10) ∧
    ¬((20 : ℤ) = -20) := ⟨rfl, by decide⟩

end Reachy
